import Mathlib

/-!
Shallow embedding of the booking server.

The embedded code is `src/server/index.js` (an Express app over two Mongoose
models) together with the two schema files:
* `src/booking/server/models/Booking.js` — collection `Booking`, with a
  unique index on `slotId` and a non-unique `(date, time)` index;
* `src/unnamed/part_000` — collection `AvailableSlot`, with a unique
  compound index on `(date, time)`.

Modelling conventions:
* A Mongo document id (`_id`) is an opaque `String`; the ids handed to a
  route by Mongoose at document creation time are explicit parameters.
* `mongoose.connection.readyState !== 1` is the Boolean `DB.connected`.
* A route's HTTP answer is `Except Err α`: `Except.error ⟨status, msg⟩`
  for an error response, `Except.ok` for the 200 JSON payload.
* `Model.save()` under a unique index is a function on the current
  collection that either appends the document or fails with the Mongo
  duplicate-key error code 11000; the route's `catch` block inspects
  that code exactly as the JS `if (error.code === 11000)` does.
* The two write routes that pre-check for a duplicate before saving read
  the collection twice (a `findOne`, then the `save`).  Because another
  request can commit between those two reads, the list seen by the
  pre-check is a separate parameter (`preSlots` / `preBookings`); the
  sequential, no-interleaving behaviour is recovered by instantiating it
  with the store's current list.
* JS falsy tests on request-body strings (`if (!date)`, `if (!password)`)
  are equality with `""`, with a missing body field modelled as `""`
  (for `password`, as `Option.none`).
* `Query.sort({date: 1, time: 1})` is a stable merge sort by the
  lexicographic byte order on the `date` string, ties broken by the
  `time` string; `lexLE` below is that character-wise comparison.
-/

/-- Document of the `AvailableSlot` collection (`src/unnamed/part_000`),
also the wire form `{id, date, time, isAvailable}` the routes emit. -/
structure Slot where
  id : String
  date : String
  time : String
  isAvailable : Bool
deriving DecidableEq, Repr

/-- Document of the `Booking` collection
(`src/booking/server/models/Booking.js`), also the wire form the routes
emit; `createdAt` is the opaque timestamp mongoose stamps on save. -/
structure Booking where
  id : String
  slotId : String
  date : String
  time : String
  clientName : String
  clientEmail : String
  clientPhone : String
  createdAt : Nat
deriving DecidableEq, Repr

/-- State of the store as a route sees it: the two collections plus the
mongoose connection flag (`readyState === 1`). -/
structure DB where
  slots : List Slot
  bookings : List Booking
  connected : Bool
deriving DecidableEq, Repr

/-- An HTTP error response: status code and the `error` message body. -/
structure Err where
  status : Nat
  msg : String
deriving DecidableEq, Repr

/-- Client-contact record placed in the `booking` field of an
`all-slots-status` entry. -/
structure ClientInfo where
  clientName : String
  clientEmail : String
  clientPhone : String
deriving DecidableEq, Repr

/-- Wire form `{id, date, time, isBooked, booking}` of
`GET /api/all-slots-status`. -/
structure SlotStatus where
  id : String
  date : String
  time : String
  isBooked : Bool
  booking : Option ClientInfo
deriving DecidableEq, Repr

/-! ### Character-list helpers (JS string operations) -/

/-- Whether `pat` occurs at the start of `s` (character-wise). -/
def listStartsWith : List Char → List Char → Bool
  | _, [] => true
  | [], _ :: _ => false
  | a :: as, b :: bs => a == b && listStartsWith as bs

/-- JS `String.prototype.replace(pat, '')` with a string pattern: remove
the first occurrence of `pat`, leave the string unchanged when `pat` does
not occur. -/
def replaceFirst (pat : List Char) : List Char → List Char
  | [] => []
  | c :: cs =>
    if listStartsWith (c :: cs) pat then (c :: cs).drop pat.length
    else c :: replaceFirst pat cs

/-- Whether `pat` occurs anywhere in the list. -/
def hasSubstr (pat : List Char) : List Char → Bool
  | [] => pat.isEmpty
  | c :: cs => listStartsWith (c :: cs) pat || hasSubstr pat cs

/-- Character-wise (byte/code-point) lexicographic `≤` on strings, the
order Mongo's ascending sort uses on the `date`/`time` string fields. -/
def lexLE : List Char → List Char → Bool
  | [], _ => true
  | _ :: _, [] => false
  | a :: as, b :: bs => if a < b then true else if b < a then false else lexLE as bs

/-- Lexicographic `≤` on `String`. -/
def strLE (a b : String) : Bool := lexLE a.data b.data

/-- Sort key of `.sort({date: 1, time: 1})`: by `date`, ties by `time`. -/
def keyLE (d₁ t₁ d₂ t₂ : String) : Bool :=
  if d₁ = d₂ then strLE t₁ t₂ else strLE d₁ d₂

/-- Slot comparison used by the sorted slot queries. -/
def slotKeyLE (a b : Slot) : Bool := keyLE a.date a.time b.date b.time

/-- Booking comparison used by the sorted booking query. -/
def bookingKeyLE (a b : Booking) : Bool := keyLE a.date a.time b.date b.time

/-! ### Session registry (`index.js` lines 29-133) -/

/-- Session-token minting, `index.js` line 109:
`Date.now().toString() + Math.random().toString(36).substr(2, 9)` —
the decimal clock reading concatenated with the `Math.random`-derived
base-36 suffix `rand`. -/
def mintToken (now : Nat) (rand : String) : String := toString now ++ rand

/-- `adminSessions.add(tok)`: JS `Set` insertion. -/
def addSession (sessions : List String) (tok : String) : List String :=
  if sessions.contains tok then sessions else sessions ++ [tok]

/-- Response of `POST /api/admin/login`. -/
structure LoginResult where
  status : Nat
  success : Bool
  token : Option String
  error : Option String
deriving DecidableEq, Repr

/-- `POST /api/admin/login` (lines 100-119): reject a falsy password with
400, mint and register a token when the password equals the configured
secret, answer 401 otherwise. -/
def login (secret : String) (sessions : List String) (password : Option String)
    (now : Nat) (rand : String) : LoginResult × List String :=
  match password with
  | none => (⟨400, false, none, some "Passwort ist erforderlich"⟩, sessions)
  | some p =>
    if p = "" then (⟨400, false, none, some "Passwort ist erforderlich"⟩, sessions)
    else if p = secret then
      let tok := mintToken now rand
      (⟨200, true, some tok, none⟩, addSession sessions tok)
    else (⟨401, false, none, some "Ungültiges Passwort"⟩, sessions)

/-- `requireAdmin` middleware (lines 54-66): no `Authorization` header is
401; otherwise strip the first occurrence of `"Bearer "` from the header
value and test membership in the session set. -/
def requireAdmin (sessions : List String) (authHeader : Option String) : Bool :=
  match authHeader with
  | none => false
  | some h => sessions.contains (String.mk (replaceFirst "Bearer ".data h.data))

/-! ### Store writes under the unique indexes -/

/-- Save of a new `AvailableSlot` document: the unique compound index
`{date: 1, time: 1}` (`src/unnamed/part_000` line 21) makes the insert
fail with Mongo error code 11000 when the pair is already present. -/
def saveSlot (slots : List Slot) (s : Slot) : Except Nat (List Slot) :=
  if slots.any (fun t => t.date == s.date && t.time == s.time) then Except.error 11000
  else Except.ok (slots ++ [s])

/-- Save of a new `Booking` document: the unique index `{slotId: 1}`
(`Booking.js` line 34) makes the insert fail with Mongo error code 11000
when some booking already references the same slot. -/
def saveBooking (bookings : List Booking) (b : Booking) : Except Nat (List Booking) :=
  if bookings.any (fun x => x.slotId == b.slotId) then Except.error 11000
  else Except.ok (bookings ++ [b])

/-! ### Routes -/

/-- `POST /api/available-slots` (lines 136-177).  `preSlots` is the list
the duplicate pre-check (`findOne({date, time})`) observes; `newId` the id
mongoose assigns to the new document. -/
def createSlot (db : DB) (preSlots : List Slot) (date time newId : String) :
    Except Err Slot × DB :=
  if db.connected = false then
    (Except.error ⟨503, "Datenbank nicht verbunden. Bitte MongoDB-Verbindung überprüfen."⟩, db)
  else if date = "" ∨ time = "" then
    (Except.error ⟨400, "Datum und Uhrzeit sind erforderlich"⟩, db)
  else if preSlots.any (fun t => t.date == date && t.time == time) then
    (Except.error ⟨400, "Dieser Platz existiert bereits"⟩, db)
  else
    match saveSlot db.slots ⟨newId, date, time, true⟩ with
    | Except.error code =>
      if code == 11000 then (Except.error ⟨400, "This slot already exists"⟩, db)
      else (Except.error ⟨500, "Platz konnte nicht hinzugefügt werden"⟩, db)
    | Except.ok slots => (Except.ok ⟨newId, date, time, true⟩, { db with slots := slots })

/-- `DELETE /api/available-slots/:id` (lines 180-207): refuse while a
booking references the slot, otherwise `findByIdAndDelete`. -/
def deleteSlot (db : DB) (id : String) : Except Err String × DB :=
  if db.connected = false then
    (Except.error ⟨503, "Datenbank nicht verbunden. Bitte MongoDB-Verbindung überprüfen."⟩, db)
  else if db.bookings.any (fun b => b.slotId == id) then
    (Except.error ⟨400, "Platz mit einer Buchung kann nicht gelöscht werden"⟩, db)
  else
    match db.slots.find? (fun s => s.id == id) with
    | none => (Except.error ⟨404, "Platz nicht gefunden"⟩, db)
    | some _ =>
      (Except.ok "Platz erfolgreich gelöscht",
       { db with slots := db.slots.eraseP (fun s => s.id == id) })

/-- `POST /api/bookings` (lines 243-297).  `preBookings` is the list the
already-booked pre-check (`findOne({slotId})`) observes; `newId` and
`now` are the id and `createdAt` timestamp mongoose assigns on save. -/
def createBooking (db : DB) (preBookings : List Booking)
    (slotId clientName clientEmail clientPhone newId : String) (now : Nat) :
    Except Err Booking × DB :=
  if db.connected = false then
    (Except.error ⟨503, "Database not connected. Please try again later."⟩, db)
  else if slotId = "" ∨ clientName = "" ∨ clientEmail = "" then
    (Except.error ⟨400, "Platz-ID, Kundenname und E-Mail sind erforderlich"⟩, db)
  else
    match db.slots.find? (fun s => s.id == slotId) with
    | none => (Except.error ⟨404, "Platz nicht gefunden"⟩, db)
    | some slot =>
      if preBookings.any (fun b => b.slotId == slotId) then
        (Except.error ⟨400, "Dieser Platz ist bereits gebucht"⟩, db)
      else
        match saveBooking db.bookings
            ⟨newId, slotId, slot.date, slot.time, clientName, clientEmail, clientPhone, now⟩ with
        | Except.error code =>
          if code == 11000 then (Except.error ⟨400, "This slot is already booked"⟩, db)
          else (Except.error ⟨500, "Buchung konnte nicht erstellt werden"⟩, db)
        | Except.ok bs =>
          (Except.ok ⟨newId, slotId, slot.date, slot.time, clientName, clientEmail, clientPhone, now⟩,
           { db with bookings := bs })

/-- `DELETE /api/bookings/:id` (lines 300-320): `findByIdAndDelete` on the
`Booking` collection. -/
def cancelBooking (db : DB) (id : String) : Except Err String × DB :=
  if db.connected = false then
    (Except.error ⟨503, "Datenbank nicht verbunden. Bitte MongoDB-Verbindung überprüfen."⟩, db)
  else
    match db.bookings.find? (fun b => b.id == id) with
    | none => (Except.error ⟨404, "Buchung nicht gefunden"⟩, db)
    | some _ =>
      (Except.ok "Buchung erfolgreich storniert",
       { db with bookings := db.bookings.eraseP (fun b => b.id == id) })

/-- `GET /api/available-slots` (lines 69-97): empty list when the store is
down, otherwise every slot sorted by `(date, time)`. -/
def listAllSlots (db : DB) : List Slot :=
  if db.connected = false then [] else db.slots.mergeSort slotKeyLE

/-- `GET /api/bookings` (lines 210-240): empty list when the store is
down, otherwise every booking sorted by `(date, time)`. -/
def listBookings (db : DB) : List Booking :=
  if db.connected = false then [] else db.bookings.mergeSort bookingKeyLE

/-- Wire entry of `GET /api/bookable-slots`: `isAvailable` is emitted as
the literal `true`. -/
def bookableView (s : Slot) : Slot := { s with isAvailable := true }

/-- `GET /api/bookable-slots` (lines 324-355): two independent reads, a
set of booked slot ids, one filtering pass. -/
def listBookableSlots (db : DB) : List Slot :=
  if db.connected = false then []
  else
    let bookedSlotIds := db.bookings.map (fun b => b.slotId)
    (db.slots.filter (fun s => !(bookedSlotIds.contains s.id))).map bookableView

/-- Lookup in the `bookingMap` of `GET /api/all-slots-status` (lines
373-382): the JS `Map` is filled by `forEach`/`set` from bookings with a
truthy `slotId`, so the last matching booking wins. -/
def bookingMapGet (bookings : List Booking) (sid : String) : Option ClientInfo :=
  match ((bookings.filter (fun b => !(b.slotId == ""))).reverse).find?
      (fun b => b.slotId == sid) with
  | none => none
  | some b => some ⟨b.clientName, b.clientEmail, b.clientPhone⟩

/-- `GET /api/all-slots-status` (lines 358-403): empty list when the store
is down, otherwise sorted slots annotated from the booking map. -/
def listAllSlotsWithStatus (db : DB) : List SlotStatus :=
  if db.connected = false then []
  else
    (db.slots.mergeSort slotKeyLE).map (fun s =>
      match bookingMapGet db.bookings s.id with
      | none => ⟨s.id, s.date, s.time, false, none⟩
      | some info => ⟨s.id, s.date, s.time, true, some info⟩)

/-! ### Reachable store states -/

/-- Store state at first deployment: both collections empty. -/
def initDB : DB := ⟨[], [], true⟩

/-- One state transition of the store: a connectivity change or one write
route committing.  The pre-check snapshot of the two guarded writes is an
arbitrary list, covering every interleaving with concurrent requests. -/
inductive Step : DB → DB → Prop where
  | conn (db : DB) (c : Bool) : Step db { db with connected := c }
  | addSlot (db : DB) (preSlots : List Slot) (date time newId : String) :
      Step db (createSlot db preSlots date time newId).2
  | removeSlot (db : DB) (id : String) : Step db (deleteSlot db id).2
  | book (db : DB) (pre : List Booking)
      (slotId clientName clientEmail clientPhone newId : String) (now : Nat) :
      Step db (createBooking db pre slotId clientName clientEmail clientPhone newId now).2
  | cancel (db : DB) (id : String) : Step db (cancelBooking db id).2

/-- States the store can reach from first deployment. -/
def Reachable (db : DB) : Prop := Relation.ReflTransGen Step initDB db

/-- Invariant of the `Booking` collection: no two bookings reference the
same slot. -/
def UniqueSlotRefs (bookings : List Booking) : Prop :=
  (bookings.map (fun b => b.slotId)).Nodup

/-! ### Lexicographic-order facts -/

theorem lexLE_iff_not_lt : ∀ as bs : List Char, lexLE as bs = true ↔ ¬ bs < as
  | [], _ => iff_of_true rfl (fun h => by cases h)
  | a :: as, [] => iff_of_false (by simp [lexLE]) (fun h => h List.Lex.nil)
  | a :: as, b :: bs => by
    simp only [lexLE]
    by_cases hab : a < b
    · rw [if_pos hab]
      refine iff_of_true rfl (fun h => ?_)
      cases h with
      | cons h' => exact absurd hab (lt_irrefl _)
      | rel h' => exact absurd h' (lt_asymm hab)
    · rw [if_neg hab]
      by_cases hba : b < a
      · rw [if_pos hba]
        exact iff_of_false (by simp) (fun h => h (List.Lex.rel hba))
      · rw [if_neg hba]
        rw [lexLE_iff_not_lt as bs]
        have hired : a = b := le_antisymm (not_lt.mp hba) (not_lt.mp hab)
        subst hired
        constructor
        · intro h hlt
          cases hlt with
          | cons h' => exact h h'
          | rel h' => exact hba h'
        · intro h hlt
          exact h (List.Lex.cons hlt)

theorem strLE_iff (a b : String) : strLE a b = true ↔ a ≤ b := by
  rw [strLE, lexLE_iff_not_lt]
  constructor
  · intro h
    exact not_lt.mp (fun hlt => h (String.lt_iff_toList_lt.mp hlt))
  · intro h hlt
    exact absurd (String.lt_iff_toList_lt.mpr hlt) (not_lt.mpr h)

theorem keyLE_iff (d₁ t₁ d₂ t₂ : String) :
    keyLE d₁ t₁ d₂ t₂ = true ↔ (d₁ < d₂ ∨ (d₁ = d₂ ∧ t₁ ≤ t₂)) := by
  unfold keyLE
  by_cases h : d₁ = d₂
  · subst h
    rw [if_pos rfl, strLE_iff]
    constructor
    · intro ht; exact Or.inr ⟨rfl, ht⟩
    · rintro (hlt | ⟨-, ht⟩)
      · exact absurd hlt (lt_irrefl _)
      · exact ht
  · rw [if_neg h, strLE_iff]
    constructor
    · intro hle; exact Or.inl (lt_of_le_of_ne hle h)
    · rintro (hlt | ⟨he, -⟩)
      · exact le_of_lt hlt
      · exact absurd he h

theorem keyLE_trans {d₁ t₁ d₂ t₂ d₃ t₃ : String}
    (h₁ : keyLE d₁ t₁ d₂ t₂ = true) (h₂ : keyLE d₂ t₂ d₃ t₃ = true) :
    keyLE d₁ t₁ d₃ t₃ = true := by
  rw [keyLE_iff] at h₁ h₂ ⊢
  rcases h₁ with h₁ | ⟨e₁, ht₁⟩
  · rcases h₂ with h₂ | ⟨e₂, ht₂⟩
    · exact Or.inl (lt_trans h₁ h₂)
    · exact Or.inl (by rw [← e₂]; exact h₁)
  · rcases h₂ with h₂ | ⟨e₂, ht₂⟩
    · exact Or.inl (by rw [e₁]; exact h₂)
    · exact Or.inr ⟨e₁.trans e₂, le_trans ht₁ ht₂⟩

theorem keyLE_total (d₁ t₁ d₂ t₂ : String) :
    (keyLE d₁ t₁ d₂ t₂ || keyLE d₂ t₂ d₁ t₁) = true := by
  rw [Bool.or_eq_true, keyLE_iff, keyLE_iff]
  rcases lt_trichotomy d₁ d₂ with h | h | h
  · exact Or.inl (Or.inl h)
  · rcases le_total t₁ t₂ with ht | ht
    · exact Or.inl (Or.inr ⟨h, ht⟩)
    · exact Or.inr (Or.inr ⟨h.symm, ht⟩)
  · exact Or.inr (Or.inl h)

theorem slotKeyLE_trans (a b c : Slot)
    (h₁ : slotKeyLE a b = true) (h₂ : slotKeyLE b c = true) : slotKeyLE a c = true :=
  keyLE_trans h₁ h₂

theorem slotKeyLE_total (a b : Slot) : (slotKeyLE a b || slotKeyLE b a) = true :=
  keyLE_total a.date a.time b.date b.time

theorem bookingKeyLE_trans (a b c : Booking)
    (h₁ : bookingKeyLE a b = true) (h₂ : bookingKeyLE b c = true) : bookingKeyLE a c = true :=
  keyLE_trans h₁ h₂

theorem bookingKeyLE_total (a b : Booking) : (bookingKeyLE a b || bookingKeyLE b a) = true :=
  keyLE_total a.date a.time b.date b.time

/-- C9: `GET /api/available-slots` returns every slot ordered by
`(date, time)` ascending (lexicographic on the string forms), and
`GET /api/bookings` returns all bookings in the same order, with ties
within the same `(date, time)` kept in the store's order. -/
theorem listings_sorted_by_date_time (db : DB) (hconn : db.connected = true) :
    ((listAllSlots db).Pairwise
        (fun a b => a.date < b.date ∨ (a.date = b.date ∧ a.time ≤ b.time))
      ∧ (listAllSlots db).Perm db.slots)
  ∧ ((listBookings db).Pairwise
        (fun a b => a.date < b.date ∨ (a.date = b.date ∧ a.time ≤ b.time))
      ∧ (listBookings db).Perm db.bookings)
  ∧ (∀ a b : Slot, [a, b].Sublist db.slots → a.date = b.date → a.time = b.time →
      [a, b].Sublist (listAllSlots db))
  ∧ (∀ a b : Booking, [a, b].Sublist db.bookings → a.date = b.date → a.time = b.time →
      [a, b].Sublist (listBookings db)) := by
  have hs : listAllSlots db = db.slots.mergeSort slotKeyLE := by
    simp [listAllSlots, hconn]
  have hb : listBookings db = db.bookings.mergeSort bookingKeyLE := by
    simp [listBookings, hconn]
  refine ⟨⟨?_, ?_⟩, ⟨?_, ?_⟩, ?_, ?_⟩
  · rw [hs]
    exact List.Pairwise.imp (fun h => (keyLE_iff _ _ _ _).mp h)
      (List.sorted_mergeSort slotKeyLE_trans slotKeyLE_total db.slots)
  · rw [hs]; exact List.mergeSort_perm db.slots slotKeyLE
  · rw [hb]
    exact List.Pairwise.imp (fun h => (keyLE_iff _ _ _ _).mp h)
      (List.sorted_mergeSort bookingKeyLE_trans bookingKeyLE_total db.bookings)
  · rw [hb]; exact List.mergeSort_perm db.bookings bookingKeyLE
  · intro a b hsub hd ht
    rw [hs]
    have hab : slotKeyLE a b = true := by
      unfold slotKeyLE
      rw [keyLE_iff]
      exact Or.inr ⟨hd, le_of_eq (by rw [ht])⟩
    have hpw : [a, b].Pairwise (fun x y => slotKeyLE x y = true) := by
      simp [List.pairwise_cons, hab]
    exact List.sublist_mergeSort slotKeyLE_trans slotKeyLE_total hpw hsub
  · intro a b hsub hd ht
    rw [hb]
    have hab : bookingKeyLE a b = true := by
      unfold bookingKeyLE
      rw [keyLE_iff]
      exact Or.inr ⟨hd, le_of_eq (by rw [ht])⟩
    have hpw : [a, b].Pairwise (fun x y => bookingKeyLE x y = true) := by
      simp [List.pairwise_cons, hab]
    exact List.sublist_mergeSort bookingKeyLE_trans bookingKeyLE_total hpw hsub

/-! ### Concrete states used to exercise the theorems -/

/-- Sample slot, the slot of §8 test 6 of the spec. -/
def slotW : Slot := ⟨"s1", "2024-06-01", "09:00", true⟩

/-- Sample booking of `slotW`. -/
def bookW : Booking := ⟨"b1", "s1", "2024-06-01", "09:00", "Jane Doe", "jane@example.com", "", 0⟩

/-- Connected store holding `slotW`, already booked by `bookW`. -/
def dbW : DB := ⟨[slotW], [bookW], true⟩

/-- Connected store holding `slotW` with no booking. -/
def dbFreeW : DB := ⟨[slotW], [], true⟩

/-- Unreachable store (mongoose `readyState !== 1`). -/
def dbDownW : DB := ⟨[slotW], [bookW], false⟩

/-! ### Preservation of the slotId-uniqueness invariant -/

theorem saveBooking_unique {bs : List Booking} {b : Booking} {bs' : List Booking}
    (hu : UniqueSlotRefs bs) (h : saveBooking bs b = Except.ok bs') : UniqueSlotRefs bs' := by
  unfold saveBooking at h
  by_cases hc : bs.any (fun x => x.slotId == b.slotId) = true
  · rw [if_pos hc] at h; cases h
  · rw [if_neg hc] at h
    simp only [Except.ok.injEq] at h
    subst h
    unfold UniqueSlotRefs at hu ⊢
    rw [List.map_append, List.nodup_append]
    refine ⟨hu, List.nodup_singleton _, ?_⟩
    intro x hx hmem
    rcases List.mem_map.mp hx with ⟨y, hymem, hyeq⟩
    simp only [List.map_cons, List.map_nil, List.mem_singleton] at hmem
    exact hc (List.any_eq_true.mpr ⟨y, hymem, by rw [hyeq, hmem]; exact beq_self_eq_true _⟩)

theorem createSlot_bookings (db : DB) (pre : List Slot) (d t i : String) :
    (createSlot db pre d t i).2.bookings = db.bookings := by
  unfold createSlot
  repeat' split
  all_goals rfl

theorem deleteSlot_bookings (db : DB) (id : String) :
    (deleteSlot db id).2.bookings = db.bookings := by
  unfold deleteSlot
  repeat' split
  all_goals rfl

theorem cancelBooking_unique (db : DB) (id : String) (hu : UniqueSlotRefs db.bookings) :
    UniqueSlotRefs (cancelBooking db id).2.bookings := by
  unfold cancelBooking
  repeat' split
  all_goals first
    | exact hu
    | exact List.Nodup.sublist
        (List.Sublist.map _ (List.eraseP_sublist db.bookings)) hu

theorem createBooking_unique (db : DB) (pre : List Booking)
    (slotId n e p newId : String) (now : Nat) (hu : UniqueSlotRefs db.bookings) :
    UniqueSlotRefs (createBooking db pre slotId n e p newId now).2.bookings := by
  unfold createBooking
  repeat' split
  all_goals first
    | exact hu
    | (rename_i bs heq; exact saveBooking_unique hu heq)

theorem step_preserves_unique {a b : DB} (h : Step a b)
    (hu : UniqueSlotRefs a.bookings) : UniqueSlotRefs b.bookings := by
  cases h with
  | conn c => exact hu
  | addSlot pre d t i => rw [createSlot_bookings]; exact hu
  | removeSlot i => rw [deleteSlot_bookings]; exact hu
  | book pre s n e p i now => exact createBooking_unique a pre s n e p i now hu
  | cancel i => exact cancelBooking_unique a i hu

theorem reachable_unique {db : DB} (h : Reachable db) : UniqueSlotRefs db.bookings := by
  unfold Reachable at h
  induction h with
  | refl => simp [initDB, UniqueSlotRefs]
  | tail hab hbc ih => exact step_preserves_unique hbc ih

/-- C9 at a concrete connected store: the sorted-listing theorem applied
to `dbW`. -/
theorem listings_sorted_by_date_time_witness :
    dbW.connected = true ∧
    (((listAllSlots dbW).Pairwise
        (fun a b => a.date < b.date ∨ (a.date = b.date ∧ a.time ≤ b.time))
      ∧ (listAllSlots dbW).Perm dbW.slots)
  ∧ ((listBookings dbW).Pairwise
        (fun a b => a.date < b.date ∨ (a.date = b.date ∧ a.time ≤ b.time))
      ∧ (listBookings dbW).Perm dbW.bookings)
  ∧ (∀ a b : Slot, [a, b].Sublist dbW.slots → a.date = b.date → a.time = b.time →
      [a, b].Sublist (listAllSlots dbW))
  ∧ (∀ a b : Booking, [a, b].Sublist dbW.bookings → a.date = b.date → a.time = b.time →
      [a, b].Sublist (listBookings dbW))) :=
  ⟨rfl, listings_sorted_by_date_time dbW rfl⟩

theorem createBooking_pre_conflict (db : DB) (pre : List Booking)
    (slotId n e p newId : String) (now : Nat) (slot : Slot)
    (hconn : db.connected = true)
    (hfind : db.slots.find? (fun s => s.id == slotId) = some slot)
    (h1 : slotId ≠ "") (h2 : n ≠ "") (h3 : e ≠ "")
    (hex : ∃ b ∈ pre, b.slotId = slotId) :
    createBooking db pre slotId n e p newId now =
      (Except.error ⟨400, "Dieser Platz ist bereits gebucht"⟩, db) := by
  have hpre : pre.any (fun b => b.slotId == slotId) = true := by
    rcases hex with ⟨b, hb, he⟩
    exact List.any_eq_true.mpr ⟨b, hb, by rw [he]; exact beq_self_eq_true _⟩
  simp [createBooking, hconn, hfind, hpre, h1, h2, h3]

theorem createBooking_dup_caught (db : DB) (pre : List Booking)
    (slotId n e p newId : String) (now : Nat) (slot : Slot)
    (hconn : db.connected = true)
    (hfind : db.slots.find? (fun s => s.id == slotId) = some slot)
    (h1 : slotId ≠ "") (h2 : n ≠ "") (h3 : e ≠ "")
    (hnopre : ∀ b ∈ pre, b.slotId ≠ slotId)
    (hex : ∃ b ∈ db.bookings, b.slotId = slotId) :
    createBooking db pre slotId n e p newId now =
      (Except.error ⟨400, "This slot is already booked"⟩, db) := by
  have hpre : pre.any (fun b => b.slotId == slotId) = false := by
    rw [List.any_eq_false]
    intro b hb
    simp only [beq_iff_eq]
    exact hnopre b hb
  have hdb : db.bookings.any (fun x => x.slotId == slotId) = true := by
    rcases hex with ⟨b, hb, he⟩
    exact List.any_eq_true.mpr ⟨b, hb, by rw [he]; exact beq_self_eq_true _⟩
  simp [createBooking, saveBooking, hconn, hfind, hpre, hdb, h1, h2, h3]

/-- C1: in every reachable store state at most one booking references any
given slot id.  `POST /api/bookings` on a slot id the pre-check already
sees booked answers 400 Conflict, and a duplicate-key violation raised by
the unique `slotId` index during the insert — possible when the pre-check
read a stale snapshot — is caught (`error.code === 11000`) and translated
into the same 400 Conflict answer instead of a 500, so no interleaving of
CreateBooking calls yields two bookings with the same `slotId`. -/
theorem booking_slot_unique_invariant :
    (∀ db : DB, Reachable db → UniqueSlotRefs db.bookings)
  ∧ (∀ (db : DB) (pre : List Booking) (slotId n e p newId : String) (now : Nat) (slot : Slot),
      db.connected = true → db.slots.find? (fun s => s.id == slotId) = some slot →
      slotId ≠ "" → n ≠ "" → e ≠ "" →
      (∃ b ∈ pre, b.slotId = slotId) →
      createBooking db pre slotId n e p newId now =
        (Except.error ⟨400, "Dieser Platz ist bereits gebucht"⟩, db))
  ∧ (∀ (db : DB) (pre : List Booking) (slotId n e p newId : String) (now : Nat) (slot : Slot),
      db.connected = true → db.slots.find? (fun s => s.id == slotId) = some slot →
      slotId ≠ "" → n ≠ "" → e ≠ "" →
      (∀ b ∈ pre, b.slotId ≠ slotId) →
      (∃ b ∈ db.bookings, b.slotId = slotId) →
      createBooking db pre slotId n e p newId now =
        (Except.error ⟨400, "This slot is already booked"⟩, db)) := by
  exact ⟨fun db h => reachable_unique h,
    fun db pre slotId n e p newId now slot hconn hfind h1 h2 h3 hex =>
      createBooking_pre_conflict db pre slotId n e p newId now slot
        hconn hfind h1 h2 h3 hex,
    fun db pre slotId n e p newId now slot hconn hfind h1 h2 h3 hnopre hex =>
      createBooking_dup_caught db pre slotId n e p newId now slot
        hconn hfind h1 h2 h3 hnopre hex⟩

/-- C1 exercised concretely: the empty initial store satisfies the
invariant; on `dbW` (slot `s1` booked) a booking attempt for `s1` is
rejected by the pre-check when its snapshot holds the booking, and by the
caught duplicate-key error when its snapshot is stale (empty). -/
theorem booking_slot_unique_invariant_witness :
    UniqueSlotRefs initDB.bookings
  ∧ createBooking dbW [bookW] "s1" "Jane Doe" "jane@example.com" "" "b2" 5 =
      (Except.error ⟨400, "Dieser Platz ist bereits gebucht"⟩, dbW)
  ∧ createBooking dbW [] "s1" "Jane Doe" "jane@example.com" "" "b2" 5 =
      (Except.error ⟨400, "This slot is already booked"⟩, dbW) :=
  ⟨booking_slot_unique_invariant.1 initDB Relation.ReflTransGen.refl,
   booking_slot_unique_invariant.2.1 dbW [bookW] "s1" "Jane Doe" "jane@example.com" "" "b2" 5
     slotW rfl (by decide) (by decide) (by decide) (by decide) (by decide),
   booking_slot_unique_invariant.2.2 dbW [] "s1" "Jane Doe" "jane@example.com" "" "b2" 5
     slotW rfl (by decide) (by decide) (by decide) (by decide) (by decide) (by decide)⟩

/-- C2: `POST /api/bookings`, run with no interleaving (the pre-check sees
the store's current bookings), rejects an empty `slotId`, `clientName` or
`clientEmail` with 400, answers 404 when no slot has the given id, 400
Conflict when a booking already references it, and otherwise appends a
booking whose `date`/`time` are copied from the slot and returns it with
its generated id and creation timestamp. -/
theorem createBooking_algorithm (db : DB) (slotId n e p newId : String) (now : Nat)
    (hconn : db.connected = true) :
    ((slotId = "" ∨ n = "" ∨ e = "") →
      createBooking db db.bookings slotId n e p newId now =
        (Except.error ⟨400, "Platz-ID, Kundenname und E-Mail sind erforderlich"⟩, db))
  ∧ (slotId ≠ "" → n ≠ "" → e ≠ "" →
      (∀ s ∈ db.slots, s.id ≠ slotId) →
      createBooking db db.bookings slotId n e p newId now =
        (Except.error ⟨404, "Platz nicht gefunden"⟩, db))
  ∧ (∀ slot : Slot, slotId ≠ "" → n ≠ "" → e ≠ "" →
      db.slots.find? (fun s => s.id == slotId) = some slot →
      (∃ b ∈ db.bookings, b.slotId = slotId) →
      createBooking db db.bookings slotId n e p newId now =
        (Except.error ⟨400, "Dieser Platz ist bereits gebucht"⟩, db))
  ∧ (∀ slot : Slot, slotId ≠ "" → n ≠ "" → e ≠ "" →
      db.slots.find? (fun s => s.id == slotId) = some slot →
      (∀ b ∈ db.bookings, b.slotId ≠ slotId) →
      createBooking db db.bookings slotId n e p newId now =
        (Except.ok ⟨newId, slotId, slot.date, slot.time, n, e, p, now⟩,
         { db with bookings :=
            db.bookings ++ [⟨newId, slotId, slot.date, slot.time, n, e, p, now⟩] })) := by
  refine ⟨?_, ?_, ?_, ?_⟩
  · intro h
    simp only [createBooking, hconn]
    rw [if_neg (by simp), if_pos h]
  · intro h1 h2 h3 hnone
    have hfind : db.slots.find? (fun s => s.id == slotId) = none := by
      rw [List.find?_eq_none]
      intro x hx
      simp only [beq_iff_eq]
      exact hnone x hx
    simp [createBooking, hconn, h1, h2, h3, hfind]
  · intro slot h1 h2 h3 hfind hex
    exact createBooking_pre_conflict db db.bookings slotId n e p newId now slot
      hconn hfind h1 h2 h3 hex
  · intro slot h1 h2 h3 hfind hnob
    have hpre : db.bookings.any (fun b => b.slotId == slotId) = false := by
      rw [List.any_eq_false]
      intro b hb
      simp only [beq_iff_eq]
      exact hnob b hb
    simp [createBooking, saveBooking, hconn, h1, h2, h3, hfind, hpre]

/-- C2 exercised concretely: on `dbFreeW` (slot `s1` unbooked) the booking
of §8 test 6 succeeds, copying the slot's date and time. -/
theorem createBooking_algorithm_witness :
    dbFreeW.connected = true ∧
    createBooking dbFreeW dbFreeW.bookings "s1" "Jane Doe" "jane@example.com" "" "b1" 0 =
      (Except.ok ⟨"b1", "s1", "2024-06-01", "09:00", "Jane Doe", "jane@example.com", "", 0⟩,
       { dbFreeW with bookings :=
          dbFreeW.bookings ++
            [⟨"b1", "s1", "2024-06-01", "09:00", "Jane Doe", "jane@example.com", "", 0⟩] }) :=
  ⟨rfl,
   (createBooking_algorithm dbFreeW "s1" "Jane Doe" "jane@example.com" "" "b1" 0 rfl).2.2.2
     slotW (by decide) (by decide) (by decide) (by decide) (by decide)⟩

theorem contains_eq_true_iff_mem {l : List String} {a : String} :
    l.contains a = true ↔ a ∈ l := by
  simp [List.contains_eq_any_beq]

/-- Membership in the `GET /api/bookable-slots` answer on a connected
store: exactly the slots no booking references, in bookable wire form. -/
theorem mem_listBookableSlots (db : DB) (hconn : db.connected = true) (v : Slot) :
    v ∈ listBookableSlots db ↔
      ∃ s ∈ db.slots, (∀ b ∈ db.bookings, b.slotId ≠ s.id) ∧ bookableView s = v := by
  have hred : listBookableSlots db =
      (db.slots.filter
        (fun s => !((db.bookings.map (fun b => b.slotId)).contains s.id))).map bookableView := by
    simp [listBookableSlots, hconn]
  rw [hred, List.mem_map]
  constructor
  · rintro ⟨s, hs, rfl⟩
    rw [List.mem_filter] at hs
    refine ⟨s, hs.1, ?_, rfl⟩
    intro b hb he
    have hmem : s.id ∈ db.bookings.map (fun b => b.slotId) := List.mem_map.mpr ⟨b, hb, he⟩
    have hc := hs.2
    rw [Bool.not_eq_true'] at hc
    rw [contains_eq_true_iff_mem.mpr hmem] at hc
    cases hc
  · rintro ⟨s, hs, hnob, rfl⟩
    refine ⟨s, ?_, rfl⟩
    rw [List.mem_filter]
    refine ⟨hs, ?_⟩
    rw [Bool.not_eq_true']
    by_cases hc : (db.bookings.map (fun b => b.slotId)).contains s.id = true
    · exfalso
      rcases List.mem_map.mp (contains_eq_true_iff_mem.mp hc) with ⟨b, hb, he⟩
      exact hnob b hb he
    · exact Bool.eq_false_iff.mpr (fun h => hc (by rw [h]))

/-- C3: for every store state, `GET /api/bookable-slots` returns exactly
the slots no booking references — a booked slot is never included, an
unbooked one always is — and every returned entry carries
`isAvailable: true`. -/
theorem bookable_slots_exact (db : DB) (hconn : db.connected = true) :
    (∀ s ∈ db.slots,
      ((∀ b ∈ db.bookings, b.slotId ≠ s.id) ↔ bookableView s ∈ listBookableSlots db))
  ∧ (∀ v ∈ listBookableSlots db, v.isAvailable = true)
  ∧ (∀ v ∈ listBookableSlots db,
      ∃ s ∈ db.slots, (∀ b ∈ db.bookings, b.slotId ≠ s.id) ∧ bookableView s = v) := by
  refine ⟨?_, ?_, ?_⟩
  · intro s hs
    constructor
    · intro hnob
      exact (mem_listBookableSlots db hconn (bookableView s)).mpr ⟨s, hs, hnob, rfl⟩
    · intro hmem
      rcases (mem_listBookableSlots db hconn (bookableView s)).mp hmem with ⟨t, ht, hnob, he⟩
      have hid : t.id = s.id := by
        have h2 := congrArg Slot.id he
        exact h2
      intro b hb
      rw [← hid]
      exact hnob b hb
  · intro v hv
    rcases (mem_listBookableSlots db hconn v).mp hv with ⟨t, ht, hnob, he⟩
    rw [← he]
    rfl
  · intro v hv
    exact (mem_listBookableSlots db hconn v).mp hv

/-- C3 exercised concretely: on `dbW` the booked slot `s1` is excluded,
and on `dbFreeW` it is listed with `isAvailable: true`. -/
theorem bookable_slots_exact_witness :
    dbW.connected = true ∧
    ((∀ b ∈ dbW.bookings, b.slotId ≠ slotW.id) ↔ bookableView slotW ∈ listBookableSlots dbW) :=
  ⟨rfl, (bookable_slots_exact dbW rfl).1 slotW (by decide)⟩

/-- C4: with the store unreachable every read route degrades to the empty
list and every write route fails explicitly with 503, leaving the store
untouched — a write never silently no-ops. -/
theorem store_down_semantics (db : DB) (hdown : db.connected = false) :
    listAllSlots db = []
  ∧ listBookableSlots db = []
  ∧ listAllSlotsWithStatus db = []
  ∧ listBookings db = []
  ∧ (∀ pre d t i, createSlot db pre d t i =
      (Except.error ⟨503, "Datenbank nicht verbunden. Bitte MongoDB-Verbindung überprüfen."⟩, db))
  ∧ (∀ i, deleteSlot db i =
      (Except.error ⟨503, "Datenbank nicht verbunden. Bitte MongoDB-Verbindung überprüfen."⟩, db))
  ∧ (∀ pre s n e p i now, createBooking db pre s n e p i now =
      (Except.error ⟨503, "Database not connected. Please try again later."⟩, db))
  ∧ (∀ i, cancelBooking db i =
      (Except.error ⟨503, "Datenbank nicht verbunden. Bitte MongoDB-Verbindung überprüfen."⟩, db)) := by
  refine ⟨?_, ?_, ?_, ?_, ?_, ?_, ?_, ?_⟩
  · simp [listAllSlots, hdown]
  · simp [listBookableSlots, hdown]
  · simp [listAllSlotsWithStatus, hdown]
  · simp [listBookings, hdown]
  · intro pre d t i; simp [createSlot, hdown]
  · intro i; simp [deleteSlot, hdown]
  · intro pre s n e p i now; simp [createBooking, hdown]
  · intro i; simp [cancelBooking, hdown]

/-- C4 at the concrete disconnected store `dbDownW`. -/
theorem store_down_semantics_witness :
    dbDownW.connected = false
  ∧ (listAllSlots dbDownW = []
  ∧ listBookableSlots dbDownW = []
  ∧ listAllSlotsWithStatus dbDownW = []
  ∧ listBookings dbDownW = []
  ∧ (∀ pre d t i, createSlot dbDownW pre d t i =
      (Except.error ⟨503, "Datenbank nicht verbunden. Bitte MongoDB-Verbindung überprüfen."⟩,
       dbDownW))
  ∧ (∀ i, deleteSlot dbDownW i =
      (Except.error ⟨503, "Datenbank nicht verbunden. Bitte MongoDB-Verbindung überprüfen."⟩,
       dbDownW))
  ∧ (∀ pre s n e p i now, createBooking dbDownW pre s n e p i now =
      (Except.error ⟨503, "Database not connected. Please try again later."⟩, dbDownW))
  ∧ (∀ i, cancelBooking dbDownW i =
      (Except.error ⟨503, "Datenbank nicht verbunden. Bitte MongoDB-Verbindung überprüfen."⟩,
       dbDownW))) :=
  ⟨rfl, store_down_semantics dbDownW rfl⟩

/-- C5: `DELETE /api/available-slots/:id` on a slot some booking references
answers 400 Conflict with the store untouched — the slot is never deleted —
and on an id that matches no slot and no booking it answers 404. -/
theorem deleteSlot_conflict_notfound (db : DB) (id : String) (hconn : db.connected = true) :
    ((∃ b ∈ db.bookings, b.slotId = id) →
      deleteSlot db id =
        (Except.error ⟨400, "Platz mit einer Buchung kann nicht gelöscht werden"⟩, db))
  ∧ ((∀ b ∈ db.bookings, b.slotId ≠ id) → (∀ s ∈ db.slots, s.id ≠ id) →
      deleteSlot db id = (Except.error ⟨404, "Platz nicht gefunden"⟩, db)) := by
  constructor
  · intro hex
    have hb : db.bookings.any (fun b => b.slotId == id) = true := by
      rcases hex with ⟨b, hbm, he⟩
      exact List.any_eq_true.mpr ⟨b, hbm, by rw [he]; exact beq_self_eq_true _⟩
    simp [deleteSlot, hconn, hb]
  · intro hnob hnos
    have hb : db.bookings.any (fun b => b.slotId == id) = false := by
      rw [List.any_eq_false]
      intro b hbm
      simp only [beq_iff_eq]
      exact hnob b hbm
    have hf : db.slots.find? (fun s => s.id == id) = none := by
      rw [List.find?_eq_none]
      intro s hsm
      simp only [beq_iff_eq]
      exact hnos s hsm
    simp [deleteSlot, hconn, hb, hf]

/-- C5 exercised concretely: deleting booked slot `s1` on `dbW` is refused
with 400 and `dbW` is unchanged; deleting the unknown id `zz` on
`dbFreeW` answers 404. -/
theorem deleteSlot_conflict_notfound_witness :
    deleteSlot dbW "s1" =
      (Except.error ⟨400, "Platz mit einer Buchung kann nicht gelöscht werden"⟩, dbW)
  ∧ deleteSlot dbFreeW "zz" = (Except.error ⟨404, "Platz nicht gefunden"⟩, dbFreeW) :=
  ⟨(deleteSlot_conflict_notfound dbW "s1" rfl).1 (by decide),
   (deleteSlot_conflict_notfound dbFreeW "zz" rfl).2 (by decide) (by decide)⟩

/-- C6 under its literal reading fails on the code: a login request with a
missing password is answered with status 400 (`InvalidInput` — the route's
`if (!password)` guard), not with 401 `Unauthorized` as claimed. -/
theorem login_missing_password_cex :
    (login "admin123" [] none 0 "abc").1.status = 400
  ∧ ¬ (login "admin123" [] none 0 "abc").1.status = 401 := by decide

/-- C6 (amended): a missing or empty password is rejected with 400 and a
wrong password with 401, in both cases leaving the session set unchanged
(no token is inserted); a password equal to the configured secret mints a
token, adds it to the active-session set and returns it with
`success: true`. -/
theorem login_semantics (secret : String) (sessions : List String)
    (password : Option String) (now : Nat) (rand : String) :
    ((password = none ∨ password = some "") →
      login secret sessions password now rand =
        (⟨400, false, none, some "Passwort ist erforderlich"⟩, sessions))
  ∧ (∀ pw, password = some pw → pw ≠ "" → pw ≠ secret →
      login secret sessions password now rand =
        (⟨401, false, none, some "Ungültiges Passwort"⟩, sessions))
  ∧ (secret ≠ "" → password = some secret →
      login secret sessions password now rand =
        (⟨200, true, some (mintToken now rand), none⟩,
         addSession sessions (mintToken now rand))
      ∧ mintToken now rand ∈ addSession sessions (mintToken now rand)) := by
  refine ⟨?_, ?_, ?_⟩
  · rintro (rfl | rfl)
    · rfl
    · simp [login]
  · rintro pw rfl h1 h2
    simp [login, h1, h2]
  · rintro h1 rfl
    constructor
    · simp [login, h1]
    · unfold addSession
      by_cases hc : sessions.contains (mintToken now rand) = true
      · rw [if_pos hc]
        exact contains_eq_true_iff_mem.mp hc
      · rw [if_neg hc]
        exact List.mem_append_right _ (List.mem_singleton.mpr rfl)

/-- C6 (amended) exercised concretely: a wrong password yields 401 and the
empty session set stays empty; the right password registers the minted
token. -/
theorem login_semantics_witness :
    login "admin123" [] (some "wrong") 0 "abc" =
      (⟨401, false, none, some "Ungültiges Passwort"⟩, [])
  ∧ (login "admin123" [] (some "admin123") 7 "xyz" =
      (⟨200, true, some (mintToken 7 "xyz"), none⟩, addSession [] (mintToken 7 "xyz"))
    ∧ mintToken 7 "xyz" ∈ addSession [] (mintToken 7 "xyz")) :=
  ⟨(login_semantics "admin123" [] (some "wrong") 0 "abc").2.1 "wrong" rfl
     (by decide) (by decide),
   (login_semantics "admin123" [] (some "admin123") 7 "xyz").2.2 (by decide) rfl⟩

/-- C7: the session token the login route mints is the decimal `Date.now()`
clock reading concatenated with the `Math.random().toString(36).substr(2,9)`
suffix — deterministic in those two inputs, a timestamp concatenation and
not a value drawn from a cryptographically-random source. -/
theorem mintToken_is_timestamp_concat :
    mintToken 1717236000000 "4fzyo82mv" = "17172360000004fzyo82mv"
  ∧ (∀ (now : Nat) (rand : String), mintToken now rand = toString now ++ rand) :=
  ⟨by decide, fun _ _ => rfl⟩

theorem slot_dup_any_iff (l : List Slot) (date time : String) :
    l.any (fun t => t.date == date && t.time == time) = true ↔
      ∃ s ∈ l, s.date = date ∧ s.time = time := by
  rw [List.any_eq_true]
  constructor
  · rintro ⟨s, hs, hp⟩
    rw [Bool.and_eq_true, beq_iff_eq, beq_iff_eq] at hp
    exact ⟨s, hs, hp⟩
  · rintro ⟨s, hs, h1, h2⟩
    exact ⟨s, hs, by rw [Bool.and_eq_true, beq_iff_eq, beq_iff_eq]; exact ⟨h1, h2⟩⟩

/-- C8: `POST /api/available-slots` rejects an empty `date` or `time` with
400, answers 400 Conflict when a slot with the same `(date, time)` already
exists — whether caught by the `findOne` pre-check or by the unique-index
duplicate-key error during the insert — and otherwise appends the slot and
returns it with `isAvailable: true`. -/
theorem createSlot_conflict_semantics (db : DB) (pre : List Slot)
    (date time newId : String) (hconn : db.connected = true) :
    ((date = "" ∨ time = "") →
      createSlot db pre date time newId =
        (Except.error ⟨400, "Datum und Uhrzeit sind erforderlich"⟩, db))
  ∧ (date ≠ "" → time ≠ "" → (∃ s ∈ pre, s.date = date ∧ s.time = time) →
      createSlot db pre date time newId =
        (Except.error ⟨400, "Dieser Platz existiert bereits"⟩, db))
  ∧ (date ≠ "" → time ≠ "" → (∀ s ∈ pre, ¬(s.date = date ∧ s.time = time)) →
      (∃ s ∈ db.slots, s.date = date ∧ s.time = time) →
      createSlot db pre date time newId =
        (Except.error ⟨400, "This slot already exists"⟩, db))
  ∧ (date ≠ "" → time ≠ "" → (∀ s ∈ pre, ¬(s.date = date ∧ s.time = time)) →
      (∀ s ∈ db.slots, ¬(s.date = date ∧ s.time = time)) →
      createSlot db pre date time newId =
        (Except.ok ⟨newId, date, time, true⟩,
         { db with slots := db.slots ++ [⟨newId, date, time, true⟩] })) := by
  refine ⟨?_, ?_, ?_, ?_⟩
  · intro h
    simp only [createSlot, hconn]
    rw [if_neg (by simp), if_pos h]
  · intro h1 h2 hex
    have hpre : pre.any (fun t => t.date == date && t.time == time) = true :=
      (slot_dup_any_iff pre date time).mpr hex
    simp [createSlot, hconn, h1, h2, hpre]
  · intro h1 h2 hnop hex
    have hpre : pre.any (fun t => t.date == date && t.time == time) = false := by
      rw [Bool.eq_false_iff]
      intro hc
      rcases (slot_dup_any_iff pre date time).mp hc with ⟨s, hs, hp⟩
      exact hnop s hs hp
    have hdb : db.slots.any (fun t => t.date == date && t.time == time) = true :=
      (slot_dup_any_iff db.slots date time).mpr hex
    simp [createSlot, saveSlot, hconn, h1, h2, hpre, hdb]
  · intro h1 h2 hnop hnod
    have hpre : pre.any (fun t => t.date == date && t.time == time) = false := by
      rw [Bool.eq_false_iff]
      intro hc
      rcases (slot_dup_any_iff pre date time).mp hc with ⟨s, hs, hp⟩
      exact hnop s hs hp
    have hdb : db.slots.any (fun t => t.date == date && t.time == time) = false := by
      rw [Bool.eq_false_iff]
      intro hc
      rcases (slot_dup_any_iff db.slots date time).mp hc with ⟨s, hs, hp⟩
      exact hnod s hs hp
    simp [createSlot, saveSlot, hconn, h1, h2, hpre, hdb]

/-- C8 exercised concretely on `dbFreeW` (which holds the slot
`2024-06-01 09:00`): the pre-check rejects that pair, a stale pre-check
snapshot still gets the caught duplicate-key 400, and a fresh pair is
inserted with `isAvailable: true`. -/
theorem createSlot_conflict_semantics_witness :
    createSlot dbFreeW [slotW] "2024-06-01" "09:00" "s2" =
      (Except.error ⟨400, "Dieser Platz existiert bereits"⟩, dbFreeW)
  ∧ createSlot dbFreeW [] "2024-06-01" "09:00" "s2" =
      (Except.error ⟨400, "This slot already exists"⟩, dbFreeW)
  ∧ createSlot dbFreeW [] "2024-06-02" "10:00" "s2" =
      (Except.ok ⟨"s2", "2024-06-02", "10:00", true⟩,
       { dbFreeW with slots := dbFreeW.slots ++ [⟨"s2", "2024-06-02", "10:00", true⟩] }) :=
  ⟨(createSlot_conflict_semantics dbFreeW [slotW] "2024-06-01" "09:00" "s2" rfl).2.1
     (by decide) (by decide) (by decide),
   (createSlot_conflict_semantics dbFreeW [] "2024-06-01" "09:00" "s2" rfl).2.2.1
     (by decide) (by decide) (by decide) (by decide),
   (createSlot_conflict_semantics dbFreeW [] "2024-06-02" "10:00" "s2" rfl).2.2.2
     (by decide) (by decide) (by decide) (by decide)⟩

/-! ### Token extraction in the authorization gate -/

theorem replaceFirst_no_occurrence {pat : List Char} :
    ∀ {s : List Char}, hasSubstr pat s = false → replaceFirst pat s = s
  | [], _ => rfl
  | c :: cs, h => by
    unfold hasSubstr at h
    rw [Bool.or_eq_false_iff] at h
    unfold replaceFirst
    rw [if_neg (by rw [h.1]; exact Bool.false_ne_true)]
    rw [replaceFirst_no_occurrence h.2]

theorem listStartsWith_append (xs ys : List Char) : listStartsWith (xs ++ ys) xs = true := by
  induction xs with
  | nil => simp [listStartsWith]
  | cons a as ih => simp [listStartsWith, ih]

theorem replaceFirst_append_self (pat rest : List Char) (hne : pat ≠ []) :
    replaceFirst pat (pat ++ rest) = rest := by
  cases pat with
  | nil => cases hne rfl
  | cons p ps =>
    show replaceFirst (p :: ps) (p :: (ps ++ rest)) = rest
    unfold replaceFirst
    rw [if_pos (show listStartsWith (p :: (ps ++ rest)) (p :: ps) = true from
      listStartsWith_append (p :: ps) rest)]
    exact List.drop_left (p :: ps) rest

/-- C10: the authorization gate removes only the first occurrence of the
substring `"Bearer "` from the `Authorization` header and looks the
remainder up in the session set: a registered token not containing
`"Bearer "` passes when sent bare, the canonical `Bearer <token>` form
passes, and any header whose remainder after the removal equals a
registered token passes, wherever the substring occurred; a missing header
is refused. -/
theorem requireAdmin_token_extraction (sessions : List String) :
    requireAdmin sessions none = false
  ∧ (∀ t : String, t ∈ sessions → hasSubstr "Bearer ".data t.data = false →
      requireAdmin sessions (some t) = true)
  ∧ (∀ t : String, t ∈ sessions → requireAdmin sessions (some ("Bearer " ++ t)) = true)
  ∧ (∀ (h t : String), t ∈ sessions → replaceFirst "Bearer ".data h.data = t.data →
      requireAdmin sessions (some h) = true) := by
  refine ⟨rfl, ?_, ?_, ?_⟩
  · intro t htm hno
    show sessions.contains (String.mk (replaceFirst "Bearer ".data t.data)) = true
    rw [replaceFirst_no_occurrence hno]
    exact contains_eq_true_iff_mem.mpr htm
  · intro t htm
    show sessions.contains
      (String.mk (replaceFirst "Bearer ".data ("Bearer " ++ t).data)) = true
    rw [String.data_append, replaceFirst_append_self _ _ (by decide)]
    exact contains_eq_true_iff_mem.mpr htm
  · intro h t htm he
    show sessions.contains (String.mk (replaceFirst "Bearer ".data h.data)) = true
    rw [he]
    exact contains_eq_true_iff_mem.mpr htm

/-- C10 exercised concretely with the registered token `tok1`: the bare
header passes, the canonical `Bearer tok1` header passes, and the
substring may sit anywhere (`toBearer k1` also maps to `tok1`). -/
theorem requireAdmin_token_extraction_witness :
    requireAdmin ["tok1"] (some "tok1") = true
  ∧ requireAdmin ["tok1"] (some ("Bearer " ++ "tok1")) = true
  ∧ requireAdmin ["tok1"] (some "toBearer k1") = true :=
  ⟨(requireAdmin_token_extraction ["tok1"]).2.1 "tok1" (by decide) (by decide),
   (requireAdmin_token_extraction ["tok1"]).2.2.1 "tok1" (by decide),
   (requireAdmin_token_extraction ["tok1"]).2.2.2 "toBearer k1" "tok1" (by decide) (by decide)⟩
